import Mathlib

/-!
Shallow embedding of the tool layer of the `my-chat-agent` repository
(`src/tools.ts`).  Tools are registered either with an `execute` function
(auto-executing) or without one (requiring human confirmation); confirmed
tools resolve their implementation by name in the exported `executions`
table.  Executors are embedded as pure functions over an explicit HTTP
environment, returning their result string together with the list of HTTP
requests they issued.
-/

set_option maxRecDepth 2000

namespace ChatAgent

/-! ## Tool registry (`export const tools`, `export const executions`) -/

/-- A registry entry: the tool's exported name and whether an `execute`
function was supplied at registration. -/
structure ToolDef where
  name : String
  hasExecute : Bool
deriving DecidableEq

/-- Side-effect class of a tool. -/
inductive SideEffectClass where
  | AUTO
  | REQUIRES_CONFIRMATION
deriving DecidableEq

/-- Classification is derived solely from executor presence at
registration: omitting the `execute` function makes a tool require human
confirmation. -/
def classify (t : ToolDef) : SideEffectClass :=
  if t.hasExecute then SideEffectClass.AUTO else SideEffectClass.REQUIRES_CONFIRMATION

/-- The exported `tools` object of `src/tools.ts`, in declaration order,
with a flag recording whether the `tool({...})` call supplied `execute`. -/
def tools : List ToolDef :=
  [ ⟨"getWeatherInformation", false⟩,
    ⟨"getLocalTime", true⟩,
    ⟨"scheduleTask", true⟩,
    ⟨"getScheduledTasks", true⟩,
    ⟨"cancelScheduledTask", true⟩,
    ⟨"createKlaviyoProfile", false⟩,
    ⟨"getKlaviyoProfile", true⟩,
    ⟨"updateKlaviyoProfile", false⟩,
    ⟨"getKlaviyoLists", true⟩,
    ⟨"createKlaviyoList", false⟩,
    ⟨"addProfileToList", false⟩,
    ⟨"removeProfileFromList", false⟩,
    ⟨"getKlaviyoCampaigns", true⟩,
    ⟨"sendKlaviyoCampaign", false⟩,
    ⟨"getKlaviyoMetrics", true⟩ ]

/-- The keys of the exported `executions` object (the confirmed-executor
table), in declaration order. -/
def executionsKeys : List String :=
  [ "getWeatherInformation",
    "createKlaviyoProfile",
    "updateKlaviyoProfile",
    "createKlaviyoList",
    "addProfileToList",
    "removeProfileFromList",
    "sendKlaviyoCampaign" ]

/-- Names of the registered tools that require confirmation (registered
without an `execute` function), in registry order. -/
def confirmationRequiredNames : List String :=
  (tools.filter (fun t => !t.hasExecute)).map ToolDef.name

/-! ## HTTP model for the Klaviyo executors -/

/-- HTTP method of an outbound request. -/
inductive Method where
  | GET
  | POST
  | PATCH
  | DELETE
deriving DecidableEq

/-- A Klaviyo profile as far as the executors inspect it: only the `id`
field of a search hit is ever read (`searchData[0].id`). -/
structure KProfile where
  id : String
deriving DecidableEq

/-- Structured request body, standing for the `JSON.stringify`-ed payload
objects built by the executors. -/
inductive KBody where
  | profilePayload (typ : String) (profileId : Option String)
      (attrs : List (String × String))
  | subscriptionPayload (typ : String) (profileId : String) (customSource : String)
deriving DecidableEq

/-- An outbound HTTP request: method, URL, the `Authorization` header
value, and the optional body. -/
structure HttpRequest where
  method : Method
  url : String
  authorization : String
  body : Option KBody
deriving DecidableEq

/-- An HTTP response as the executors consume it: `ok`, `status`,
`statusText`, the raw text body, and `profiles` standing for the result of
parsing the body as a JSON array of profiles (meaningful for the people
search endpoint). -/
structure HttpResponse where
  ok : Bool
  status : Nat
  statusText : String
  body : String
  profiles : List KProfile
deriving DecidableEq

/-- The HTTP world an executor runs against: a map from request to
response. -/
def HttpEnv : Type := HttpRequest → HttpResponse

/-- A request is mutating unless it is a GET. -/
def isMutating (r : HttpRequest) : Bool :=
  match r.method with
  | Method.GET => false
  | _ => true

/-- Hex digit (upper case) for percent-encoding. -/
def hexDigit (n : Nat) : Char :=
  if n < 10 then Char.ofNat (48 + n) else Char.ofNat (55 + n)

/-- Bytes left unescaped by `encodeURIComponent`: ASCII alphanumerics and
`- _ . ! ~ * ' ( )`. -/
def isUnreservedByte (n : Nat) : Bool :=
  (48 ≤ n && n ≤ 57) || (65 ≤ n && n ≤ 90) || (97 ≤ n && n ≤ 122) ||
  n = 45 || n = 95 || n = 46 || n = 33 || n = 126 || n = 42 || n = 39 ||
  n = 40 || n = 41

/-- JavaScript `encodeURIComponent`: percent-encode every UTF-8 byte
outside the unreserved set. -/
def encodeURIComponent (s : String) : String :=
  String.mk (s.toUTF8.toList.foldr
    (fun b acc =>
      let n := b.toNat
      if isUnreservedByte n then Char.ofNat n :: acc
      else Char.ofNat 37 :: hexDigit (n / 16) :: hexDigit (n % 16) :: acc)
    [])

/-- The people-search request issued by `getKlaviyoProfile` and by every
two-step executor:
`GET https://a.klaviyo.com/api/v2/people/search?email=...`. -/
def klaviyoSearchReq (apiKey email : String) : HttpRequest :=
  { method := Method.GET
    url := "https://a.klaviyo.com/api/v2/people/search?email=" ++ encodeURIComponent email
    authorization := "Klaviyo-API-Key " ++ apiKey
    body := none }

/-! ## Klaviyo executors -/

/-- Parameters of `updateKlaviyoProfile` (and of `createKlaviyoProfile`);
the `customProperties` record is not inspected by any verified property
and is omitted. -/
structure ProfileParams where
  email : String
  firstName : Option String := none
  lastName : Option String := none
  phoneNumber : Option String := none
  address1 : Option String := none
  address2 : Option String := none
  city : Option String := none
  region : Option String := none
  country : Option String := none
  zip : Option String := none
  organization : Option String := none
  title : Option String := none
  image : Option String := none
deriving DecidableEq

/-- The conditional-spread idiom `...(v && \x7b key: v \x7d)`: the field is
included only when the value is present and truthy (a nonempty string). -/
def optField (key : String) (v : Option String) : List (String × String) :=
  match v with
  | none => []
  | some s => if s = "" then [] else [(key, s)]

/-- The `attributes` object built by the `updateKlaviyoProfile` confirmed
executor. -/
def updateAttrs (p : ProfileParams) : List (String × String) :=
  optField "first_name" p.firstName ++ optField "last_name" p.lastName ++
  optField "phone_number" p.phoneNumber ++ optField "address1" p.address1 ++
  optField "address2" p.address2 ++ optField "city" p.city ++
  optField "region" p.region ++ optField "country" p.country ++
  optField "zip" p.zip ++ optField "organization" p.organization ++
  optField "title" p.title ++ optField "image" p.image

/-- Confirmed executor `executions.updateKlaviyoProfile`: search the
profile by email, then PATCH it by id; thrown errors are caught and
returned as `Error updating profile: ...`.  Returns the result string and
the requests issued, in order. -/
def updateKlaviyoProfileExec (apiKeyEnv : Option String) (env : HttpEnv)
    (params : ProfileParams) : String × List HttpRequest :=
  let apiKey := apiKeyEnv.getD ""
  let searchReq := klaviyoSearchReq apiKey params.email
  let searchResp := env searchReq
  if !searchResp.ok then
    ("Error updating profile: Error: Error finding profile: " ++
        toString searchResp.status ++ " " ++ searchResp.statusText,
      [searchReq])
  else
    match searchResp.profiles with
    | [] =>
        ("Error updating profile: Error: Profile not found for email: " ++ params.email,
          [searchReq])
    | p :: _ =>
        let profileId := p.id
        let patchReq : HttpRequest :=
          { method := Method.PATCH
            url := "https://a.klaviyo.com/api/profiles/" ++ profileId ++ "/"
            authorization := "Klaviyo-API-Key " ++ apiKey
            body := some (KBody.profilePayload "profile" (some profileId) (updateAttrs params)) }
        let patchResp := env patchReq
        if !patchResp.ok then
          ("Error updating profile: Error: Klaviyo API error: " ++
              toString patchResp.status ++ " " ++ patchResp.statusText ++ " - " ++
              patchResp.body,
            [searchReq, patchReq])
        else
          ("Profile updated successfully for " ++ params.email, [searchReq, patchReq])

/-- Parameters of `addProfileToList` and `removeProfileFromList`. -/
structure ListParams where
  email : String
  listId : String
deriving DecidableEq

/-- Confirmed executor `executions.addProfileToList`: search the profile by
email, then POST a subscription to the list; errors are caught and returned
as `Error adding profile to list: ...`. -/
def addProfileToListExec (apiKeyEnv : Option String) (env : HttpEnv)
    (params : ListParams) : String × List HttpRequest :=
  let apiKey := apiKeyEnv.getD ""
  let searchReq := klaviyoSearchReq apiKey params.email
  let searchResp := env searchReq
  if !searchResp.ok then
    ("Error adding profile to list: Error: Error finding profile: " ++
        toString searchResp.status ++ " " ++ searchResp.statusText,
      [searchReq])
  else
    match searchResp.profiles with
    | [] =>
        ("Error adding profile to list: Error: Profile not found for email: " ++ params.email,
          [searchReq])
    | p :: _ =>
        let postReq : HttpRequest :=
          { method := Method.POST
            url := "https://a.klaviyo.com/api/lists/" ++ params.listId ++ "/subscriptions/"
            authorization := "Klaviyo-API-Key " ++ apiKey
            body := some (KBody.subscriptionPayload "subscription" p.id "API") }
        let postResp := env postReq
        if !postResp.ok then
          ("Error adding profile to list: Error: Klaviyo API error: " ++
              toString postResp.status ++ " " ++ postResp.statusText ++ " - " ++
              postResp.body,
            [searchReq, postReq])
        else
          ("Profile " ++ params.email ++ " added to list " ++ params.listId ++ " successfully",
            [searchReq, postReq])

/-- Confirmed executor `executions.removeProfileFromList`: search the
profile by email, then DELETE the subscription; errors are caught and
returned as `Error removing profile from list: ...`. -/
def removeProfileFromListExec (apiKeyEnv : Option String) (env : HttpEnv)
    (params : ListParams) : String × List HttpRequest :=
  let apiKey := apiKeyEnv.getD ""
  let searchReq := klaviyoSearchReq apiKey params.email
  let searchResp := env searchReq
  if !searchResp.ok then
    ("Error removing profile from list: Error: Error finding profile: " ++
        toString searchResp.status ++ " " ++ searchResp.statusText,
      [searchReq])
  else
    match searchResp.profiles with
    | [] =>
        ("Error removing profile from list: Error: Profile not found for email: " ++ params.email,
          [searchReq])
    | p :: _ =>
        let delReq : HttpRequest :=
          { method := Method.DELETE
            url := "https://a.klaviyo.com/api/lists/" ++ params.listId ++
              "/subscriptions/" ++ p.id ++ "/"
            authorization := "Klaviyo-API-Key " ++ apiKey
            body := none }
        let delResp := env delReq
        if !delResp.ok then
          ("Error removing profile from list: Error: Klaviyo API error: " ++
              toString delResp.status ++ " " ++ delResp.statusText ++ " - " ++
              delResp.body,
            [searchReq, delReq])
        else
          ("Profile " ++ params.email ++ " removed from list " ++ params.listId ++ " successfully",
            [searchReq, delReq])

/-- Auto executor of `getKlaviyoProfile`: reads the API key from the
process environment (`process.env.KLAVIYO_API_KEY || ''`), throws before
any request when it is missing or empty, and returns either the parsed
search data or a caught-error string. -/
def getKlaviyoProfileExec (apiKeyEnv : Option String) (env : HttpEnv)
    (email : String) : (List KProfile ⊕ String) × List HttpRequest :=
  let apiKey := apiKeyEnv.getD ""
  if apiKey = "" then
    (Sum.inr "Error getting profile: Error: KLAVIYO_API_KEY environment variable is not set",
      [])
  else
    let req := klaviyoSearchReq apiKey email
    let resp := env req
    if !resp.ok then
      (Sum.inr ("Error getting profile: Error: Klaviyo API error: " ++
          toString resp.status ++ " " ++ resp.statusText ++ " - " ++ resp.body),
        [req])
    else
      (Sum.inl resp.profiles, [req])

/-- Auto executor of `getLocalTime`: logs the location and returns the
constant `"10am"`.  The first component is the console log line, the second
the tool result. -/
def getLocalTimeExec (location : String) : String × String :=
  ("Getting local time for " ++ location, "10am")

/-! ## Scheduling tools -/

/-- The `when` argument accepted by `scheduleTask` (the
`unstable_scheduleSchema` discriminated union): exactly four variants,
each carrying the one field matching its `type` tag.  Dates are modelled
by their string representation. -/
inductive ScheduleWhen where
  | scheduled (date : String)
  | delayed (delayInSeconds : Int)
  | cron (cron : String)
  | noSchedule
deriving DecidableEq

/-- The raw value the executor passes to `agent.schedule` as its first
argument: a date, a number, or a cron string. -/
inductive ScheduleInput where
  | dateVal (d : String)
  | numVal (n : Int)
  | strVal (s : String)
deriving DecidableEq

/-- Stringification of the trigger value, as interpolated into the
result message. -/
def scheduleInputText : ScheduleInput → String
  | ScheduleInput.dateVal d => d
  | ScheduleInput.numVal n => toString n
  | ScheduleInput.strVal s => s

/-- The trigger value the executor selects for a given `when`, `none` for
the `no-schedule` variant (which returns before any selection). -/
def scheduleInputOf : ScheduleWhen → Option ScheduleInput
  | ScheduleWhen.scheduled d => some (ScheduleInput.dateVal d)
  | ScheduleWhen.delayed n => some (ScheduleInput.numVal n)
  | ScheduleWhen.cron c => some (ScheduleInput.strVal c)
  | ScheduleWhen.noSchedule => none

/-- The `type` tag of a `when` value, as interpolated into the result
message. -/
def scheduleTypeName : ScheduleWhen → String
  | ScheduleWhen.scheduled _ => "scheduled"
  | ScheduleWhen.delayed _ => "delayed"
  | ScheduleWhen.cron _ => "cron"
  | ScheduleWhen.noSchedule => "no-schedule"

/-- One call made to `agent.schedule`: the trigger value, the action name
and the payload. -/
structure ScheduleCall where
  trigger : ScheduleInput
  actionName : String
  payload : String
deriving DecidableEq

/-- The session's `schedule` operation, supplied by the environment: given
trigger, action name and payload it either assigns a schedule id or fails
with an error (its stringified form). -/
def ScheduleEnv : Type := ScheduleInput → String → String → Except String String

/-- Outcome of one run of the `scheduleTask` executor: `result` is what
reaches the tool-call boundary (`Except.ok` a returned result string,
`Except.error` a thrown exception), `calls` the `agent.schedule` calls
made, and `rejections` the rejections of un-awaited promises, which escape
the executor as unhandled promise rejections rather than as its result. -/
structure ScheduleRun where
  result : Except String String
  calls : List ScheduleCall
  rejections : List String

/-- The `try`/`catch` around `agent.schedule(input, "executeTask",
description)` followed by the success message.  `agent.schedule` is an
async method and the call is not awaited (contrast the `await` in
`cancelScheduledTask`), so the `catch` observes no error: a scheduling
failure becomes a detached rejection while the success message is still
returned. -/
def runScheduleCall (agentSchedule : ScheduleEnv) (typeName : String)
    (input : ScheduleInput) (description : String) : ScheduleRun :=
  let call : ScheduleCall := ⟨input, "executeTask", description⟩
  let rejections :=
    match agentSchedule input "executeTask" description with
    | Except.error e => [e]
    | Except.ok _ => []
  { result := Except.ok ("Task scheduled for type \"" ++ typeName ++ "\" : " ++
      scheduleInputText input)
    calls := [call]
    rejections := rejections }

/-- Executor of the `scheduleTask` tool. -/
def scheduleTaskExec (agentSchedule : ScheduleEnv) (when : ScheduleWhen)
    (description : String) : ScheduleRun :=
  match when with
  | ScheduleWhen.noSchedule =>
      { result := Except.ok "Not a valid schedule input", calls := [], rejections := [] }
  | ScheduleWhen.scheduled d =>
      runScheduleCall agentSchedule "scheduled" (ScheduleInput.dateVal d) description
  | ScheduleWhen.delayed n =>
      runScheduleCall agentSchedule "delayed" (ScheduleInput.numVal n) description
  | ScheduleWhen.cron c =>
      runScheduleCall agentSchedule "cron" (ScheduleInput.strVal c) description

/-- A schedule descriptor as stored by the session (only the fields the
tools inspect are modelled). -/
structure TaskDesc where
  id : String
  callback : String
  payload : String
deriving DecidableEq

/-- Result of the `getScheduledTasks` tool: either the task array itself
or a string message. -/
inductive TasksResult where
  | taskList (ts : List TaskDesc)
  | message (s : String)
deriving DecidableEq

/-- Executor of the `getScheduledTasks` tool.  Its argument is the outcome
of `agent.getSchedules()`: `Except.error` a thrown error, `Except.ok none`
a null/undefined return, `Except.ok (some ts)` the task array. -/
def getScheduledTasksExec (agentGetSchedules : Except String (Option (List TaskDesc))) :
    TasksResult :=
  match agentGetSchedules with
  | Except.error e => TasksResult.message ("Error listing scheduled tasks: " ++ e)
  | Except.ok none => TasksResult.message "No scheduled tasks found."
  | Except.ok (some tasks) =>
      if tasks.isEmpty then TasksResult.message "No scheduled tasks found."
      else TasksResult.taskList tasks

/-- Modelled from the spec: the Schedule Store's `cancel(scheduleId)`
operation of the `agents` session host, whose implementation is not part
of this repository.  Per the spec it fails with `UnknownScheduleError` if
the id is absent from the store, and otherwise removes the descriptor. -/
def storeCancel (store : List (String × TaskDesc)) (scheduleId : String) :
    Except String (List (String × TaskDesc)) :=
  if store.any (fun p => p.fst == scheduleId) then
    Except.ok (store.filter (fun p => !(p.fst == scheduleId)))
  else
    Except.error ("UnknownScheduleError: no schedule with id " ++ scheduleId)

/-- Executor of the `cancelScheduledTask` tool: `await
agent.cancelSchedule(taskId)` inside `try/catch`, success and failure both
reported as result strings.  Returns the result string and the store after
the call. -/
def cancelScheduledTaskExec (store : List (String × TaskDesc)) (taskId : String) :
    String × List (String × TaskDesc) :=
  match storeCancel store taskId with
  | Except.ok store2 => ("Task " ++ taskId ++ " has been successfully canceled.", store2)
  | Except.error e => ("Error canceling task " ++ taskId ++ ": " ++ e, store)

end ChatAgent

namespace ChatAgent

/-- C1: a tool requires confirmation iff it was registered without an
execute function, and the confirmed-executor table `executions` has an
entry for exactly the seven confirmation-required tool names and for no
auto-executing tool. -/
theorem executions_matches_confirmation_required :
    (∀ t ∈ tools,
        classify t = SideEffectClass.REQUIRES_CONFIRMATION ↔ t.hasExecute = false) ∧
    confirmationRequiredNames =
      [ "getWeatherInformation", "createKlaviyoProfile", "updateKlaviyoProfile",
        "createKlaviyoList", "addProfileToList", "removeProfileFromList",
        "sendKlaviyoCampaign" ] ∧
    executionsKeys = confirmationRequiredNames ∧
    (∀ t ∈ tools, t.hasExecute = true → t.name ∉ executionsKeys) := by
  refine ⟨?_, by decide, by decide, by decide⟩
  intro t _
  cases h : t.hasExecute <;> simp [classify, h]

/-- Witness for C1: a concrete confirmation-required tool and a concrete
auto tool from the registry. -/
theorem executions_matches_confirmation_required_witness :
    (classify ⟨"getWeatherInformation", false⟩ = SideEffectClass.REQUIRES_CONFIRMATION ↔
      (⟨"getWeatherInformation", false⟩ : ToolDef).hasExecute = false) ∧
    (⟨"getLocalTime", true⟩ : ToolDef).name ∉ executionsKeys :=
  ⟨executions_matches_confirmation_required.1 ⟨"getWeatherInformation", false⟩ (by decide),
   executions_matches_confirmation_required.2.2.2 ⟨"getLocalTime", true⟩ (by decide) rfl⟩

/-- C2: every two-step executor that resolves a profile by email before
mutating (updateKlaviyoProfile, addProfileToList, removeProfileFromList)
returns the `Profile not found` error string and issues no mutating HTTP
request when the email search comes back ok with zero matches. -/
theorem twoStep_notFound_no_mutation :
    ∀ (apiKeyEnv : Option String) (env : HttpEnv),
      (∀ p : ProfileParams,
        (env (klaviyoSearchReq (apiKeyEnv.getD "") p.email)).ok = true →
        (env (klaviyoSearchReq (apiKeyEnv.getD "") p.email)).profiles = [] →
        (updateKlaviyoProfileExec apiKeyEnv env p).fst =
          "Error updating profile: Error: Profile not found for email: " ++ p.email ∧
        (updateKlaviyoProfileExec apiKeyEnv env p).snd =
          [klaviyoSearchReq (apiKeyEnv.getD "") p.email] ∧
        ∀ r ∈ (updateKlaviyoProfileExec apiKeyEnv env p).snd, isMutating r = false) ∧
      (∀ q : ListParams,
        (env (klaviyoSearchReq (apiKeyEnv.getD "") q.email)).ok = true →
        (env (klaviyoSearchReq (apiKeyEnv.getD "") q.email)).profiles = [] →
        (addProfileToListExec apiKeyEnv env q).fst =
          "Error adding profile to list: Error: Profile not found for email: " ++ q.email ∧
        (addProfileToListExec apiKeyEnv env q).snd =
          [klaviyoSearchReq (apiKeyEnv.getD "") q.email] ∧
        ∀ r ∈ (addProfileToListExec apiKeyEnv env q).snd, isMutating r = false) ∧
      (∀ q : ListParams,
        (env (klaviyoSearchReq (apiKeyEnv.getD "") q.email)).ok = true →
        (env (klaviyoSearchReq (apiKeyEnv.getD "") q.email)).profiles = [] →
        (removeProfileFromListExec apiKeyEnv env q).fst =
          "Error removing profile from list: Error: Profile not found for email: " ++ q.email ∧
        (removeProfileFromListExec apiKeyEnv env q).snd =
          [klaviyoSearchReq (apiKeyEnv.getD "") q.email] ∧
        ∀ r ∈ (removeProfileFromListExec apiKeyEnv env q).snd, isMutating r = false) := by
  intro apiKeyEnv env
  refine ⟨fun p h1 h2 => ?_, fun q h1 h2 => ?_, fun q h1 h2 => ?_⟩ <;>
    (simp [updateKlaviyoProfileExec, addProfileToListExec, removeProfileFromListExec, h1, h2]
     all_goals simp [isMutating, klaviyoSearchReq])

/-- Witness for C2: a concrete environment whose search succeeds with an
empty match list. -/
theorem twoStep_notFound_no_mutation_witness :
    (updateKlaviyoProfileExec (some "k") (fun _ => ⟨true, 200, "OK", "[]", []⟩)
        { email := "a@b.c" }).fst =
      "Error updating profile: Error: Profile not found for email: " ++ "a@b.c" ∧
    (updateKlaviyoProfileExec (some "k") (fun _ => ⟨true, 200, "OK", "[]", []⟩)
        { email := "a@b.c" }).snd =
      [klaviyoSearchReq ((some "k").getD "") "a@b.c"] ∧
    ∀ r ∈ (updateKlaviyoProfileExec (some "k") (fun _ => ⟨true, 200, "OK", "[]", []⟩)
        { email := "a@b.c" }).snd, isMutating r = false :=
  (twoStep_notFound_no_mutation (some "k") (fun _ => ⟨true, 200, "OK", "[]", []⟩)).1
    { email := "a@b.c" } rfl rfl

/-- C9: with the KLAVIYO_API_KEY environment variable absent or empty,
`getKlaviyoProfile` returns an error-string result and issues no outbound
HTTP request; the executor still returns normally, so only the one call
fails. -/
theorem getKlaviyoProfile_missing_key :
    ∀ (apiKeyEnv : Option String) (env : HttpEnv) (email : String),
      apiKeyEnv = none ∨ apiKeyEnv = some "" →
      getKlaviyoProfileExec apiKeyEnv env email =
        (Sum.inr "Error getting profile: Error: KLAVIYO_API_KEY environment variable is not set",
          []) := by
  intro apiKeyEnv env email h
  rcases h with h | h <;> subst h <;> rfl

/-- Witness for C9: the key is absent from the environment. -/
theorem getKlaviyoProfile_missing_key_witness :
    getKlaviyoProfileExec none (fun _ => ⟨true, 200, "OK", "", []⟩) "a@b.c" =
      (Sum.inr "Error getting profile: Error: KLAVIYO_API_KEY environment variable is not set",
        []) :=
  getKlaviyoProfile_missing_key none (fun _ => ⟨true, 200, "OK", "", []⟩) "a@b.c" (Or.inl rfl)

/-- Helper: `runScheduleCall` always returns the success message at the
tool-call boundary, whatever the schedule operation's promise does. -/
theorem runScheduleCall_result (f : ScheduleEnv) (t : String) (inp : ScheduleInput)
    (d : String) :
    (runScheduleCall f t inp d).result =
      Except.ok ("Task scheduled for type \"" ++ t ++ "\" : " ++ scheduleInputText inp) :=
  rfl

/-- Helper: `runScheduleCall` records exactly one schedule call, with the
given trigger, the action name "executeTask" and the description as
payload. -/
theorem runScheduleCall_trace (f : ScheduleEnv) (t : String) (inp : ScheduleInput)
    (d : String) : (runScheduleCall f t inp d).calls = [⟨inp, "executeTask", d⟩] :=
  rfl

/-- C3, at the failing input: the `agent.schedule` call is async and not
awaited, so when scheduling a delayed/30 task fails with "boom" the
`catch` never fires — the executor still returns the success message and
the error escapes as a detached unhandled rejection instead of being
returned as the tool's result text. -/
theorem scheduleTask_error_escapes_catch :
    scheduleTaskExec (fun _ _ _ => Except.error "boom") (ScheduleWhen.delayed 30) "p" =
      { result := Except.ok ("Task scheduled for type \"" ++ "delayed" ++ "\" : " ++
          scheduleInputText (ScheduleInput.numVal 30))
        calls := [⟨ScheduleInput.numVal 30, "executeTask", "p"⟩]
        rejections := ["boom"] } :=
  rfl

/-- C4: `when.type = "no-schedule"` returns an informational result string
without registering any schedule and without throwing. -/
theorem scheduleTask_noSchedule_info :
    ∀ (f : ScheduleEnv) (d : String),
      scheduleTaskExec f ScheduleWhen.noSchedule d =
        { result := Except.ok "Not a valid schedule input", calls := [],
          rejections := [] } :=
  fun _ _ => rfl

/-- C5: for "scheduled"/"delayed"/"cron" inputs the trigger passed to the
session's schedule operation is exactly the field matching the type, with
action name "executeTask" and the description as payload. -/
theorem scheduleTask_trigger_matches_type :
    ∀ (f : ScheduleEnv) (d : String),
      (∀ dt, (scheduleTaskExec f (ScheduleWhen.scheduled dt) d).calls =
          [⟨ScheduleInput.dateVal dt, "executeTask", d⟩]) ∧
      (∀ n, (scheduleTaskExec f (ScheduleWhen.delayed n) d).calls =
          [⟨ScheduleInput.numVal n, "executeTask", d⟩]) ∧
      (∀ c, (scheduleTaskExec f (ScheduleWhen.cron c) d).calls =
          [⟨ScheduleInput.strVal c, "executeTask", d⟩]) :=
  fun f d =>
    ⟨fun dt => runScheduleCall_trace f "scheduled" (ScheduleInput.dateVal dt) d,
     fun n => runScheduleCall_trace f "delayed" (ScheduleInput.numVal n) d,
     fun c => runScheduleCall_trace f "cron" (ScheduleInput.strVal c) d⟩

/-- Counterexample for C6: with a dispatcher that assigns the schedule id
"sched-42", a successful scheduleTask call does not return that id. -/
theorem scheduleTask_not_id_counterexample :
    (scheduleTaskExec (fun _ _ _ => Except.ok "sched-42") (ScheduleWhen.delayed 30) "p").result ≠
      Except.ok "sched-42" := by
  simp only [scheduleTaskExec, runScheduleCall, ne_eq, Except.ok.injEq]
  decide

/-- C6 (amended): a successful scheduling tool call returns a
human-readable confirmation naming the schedule type and the trigger
value, not the dispatcher-assigned identifier. -/
theorem scheduleTask_returns_confirmation_message :
    ∀ (f : ScheduleEnv) (when : ScheduleWhen) (d : String) (inp : ScheduleInput)
      (sid : String),
      scheduleInputOf when = some inp →
      f inp "executeTask" d = Except.ok sid →
      (scheduleTaskExec f when d).result =
        Except.ok ("Task scheduled for type \"" ++ scheduleTypeName when ++ "\" : " ++
          scheduleInputText inp) := by
  intro f when d inp sid hinp hf
  cases when with
  | noSchedule => simp [scheduleInputOf] at hinp
  | scheduled dt =>
      simp only [scheduleInputOf, Option.some.injEq] at hinp
      subst hinp
      exact runScheduleCall_result f "scheduled" _ d
  | delayed n =>
      simp only [scheduleInputOf, Option.some.injEq] at hinp
      subst hinp
      exact runScheduleCall_result f "delayed" _ d
  | cron c =>
      simp only [scheduleInputOf, Option.some.injEq] at hinp
      subst hinp
      exact runScheduleCall_result f "cron" _ d

/-- Witness for the amended C6. -/
theorem scheduleTask_returns_confirmation_message_witness :
    (scheduleTaskExec (fun _ _ _ => Except.ok "sched-42") (ScheduleWhen.delayed 30) "p").result =
      Except.ok ("Task scheduled for type \"" ++ scheduleTypeName (ScheduleWhen.delayed 30) ++
        "\" : " ++ scheduleInputText (ScheduleInput.numVal 30)) :=
  scheduleTask_returns_confirmation_message (fun _ _ _ => Except.ok "sched-42")
    (ScheduleWhen.delayed 30) "p" (ScheduleInput.numVal 30) "sched-42" rfl rfl

/-- Counterexample for C7: with nothing scheduled, getScheduledTasks
returns the informational string, not the empty task list. -/
theorem getScheduledTasks_empty_counterexample :
    getScheduledTasksExec (Except.ok (some [])) =
      TasksResult.message "No scheduled tasks found." ∧
    getScheduledTasksExec (Except.ok (some [])) ≠ TasksResult.taskList [] := by
  refine ⟨rfl, ?_⟩
  intro h
  simp [getScheduledTasksExec] at h

/-- C7 (amended): when no tasks are scheduled (a null or empty array from
the session), getScheduledTasks returns the informational string
"No scheduled tasks found." rather than an error or a task list. -/
theorem getScheduledTasks_empty_message :
    ∀ r : Except String (Option (List TaskDesc)),
      r = Except.ok none ∨ r = Except.ok (some []) →
      getScheduledTasksExec r = TasksResult.message "No scheduled tasks found." := by
  intro r h
  rcases h with h | h <;> subst h <;> rfl

/-- Witness for the amended C7. -/
theorem getScheduledTasks_empty_message_witness :
    getScheduledTasksExec (Except.ok (some ([] : List TaskDesc))) =
      TasksResult.message "No scheduled tasks found." :=
  getScheduledTasks_empty_message (Except.ok (some [])) (Or.inr rfl)

/-- Helper: after filtering out every entry with a given id, no entry with
that id remains. -/
theorem any_filter_not_beq (store : List (String × TaskDesc)) (tid : String) :
    ((store.filter (fun p => !(p.fst == tid))).any (fun p => p.fst == tid)) = false := by
  rw [List.any_eq_false]
  intro x hx
  have h2 := (List.mem_filter.mp hx).2
  simp only [Bool.not_eq_eq_eq_not, Bool.not_true] at h2
  simp [h2]

/-- C8: cancelling a schedule id absent from the store fails with the
UnknownScheduleError-class result and leaves the store unchanged, and
cancelling the same id twice fails on the second cancellation. -/
theorem cancelScheduledTask_unknown_and_twice :
    (∀ (store : List (String × TaskDesc)) (tid : String),
      store.any (fun p => p.fst == tid) = false →
      (cancelScheduledTaskExec store tid).fst =
        "Error canceling task " ++ tid ++ ": " ++
          ("UnknownScheduleError: no schedule with id " ++ tid) ∧
      (cancelScheduledTaskExec store tid).snd = store) ∧
    (∀ (store : List (String × TaskDesc)) (tid : String),
      store.any (fun p => p.fst == tid) = true →
      (cancelScheduledTaskExec store tid).fst =
        "Task " ++ tid ++ " has been successfully canceled." ∧
      (cancelScheduledTaskExec (cancelScheduledTaskExec store tid).snd tid).fst =
        "Error canceling task " ++ tid ++ ": " ++
          ("UnknownScheduleError: no schedule with id " ++ tid)) := by
  constructor
  · intro store tid h
    simp [cancelScheduledTaskExec, storeCancel, h]
  · intro store tid h
    refine ⟨by simp [cancelScheduledTaskExec, storeCancel, h], ?_⟩
    have hsnd : (cancelScheduledTaskExec store tid).snd =
        store.filter (fun p => !(p.fst == tid)) := by
      simp [cancelScheduledTaskExec, storeCancel, h]
    rw [hsnd]
    simp [cancelScheduledTaskExec, storeCancel, any_filter_not_beq]

/-- Witness for C8: cancelling on an empty store fails; cancelling a
present id succeeds once and fails the second time. -/
theorem cancelScheduledTask_unknown_and_twice_witness :
    ((cancelScheduledTaskExec [] "t9").fst =
        "Error canceling task " ++ "t9" ++ ": " ++
          ("UnknownScheduleError: no schedule with id " ++ "t9") ∧
      (cancelScheduledTaskExec [] "t9").snd = []) ∧
    ((cancelScheduledTaskExec [("t1", ⟨"t1", "executeTask", "p"⟩)] "t1").fst =
        "Task " ++ "t1" ++ " has been successfully canceled." ∧
      (cancelScheduledTaskExec
          (cancelScheduledTaskExec [("t1", ⟨"t1", "executeTask", "p"⟩)] "t1").snd "t1").fst =
        "Error canceling task " ++ "t1" ++ ": " ++
          ("UnknownScheduleError: no schedule with id " ++ "t1")) :=
  ⟨cancelScheduledTask_unknown_and_twice.1 [] "t9" rfl,
   cancelScheduledTask_unknown_and_twice.2 [("t1", ⟨"t1", "executeTask", "p"⟩)] "t1"
     (by decide)⟩

/-- C10: the auto-executing `getLocalTime` tool returns the constant
string "10am", independently of the location argument. -/
theorem getLocalTime_constant :
    ∀ location : String,
      (getLocalTimeExec location).snd = "10am" ∧
      ∀ other : String, (getLocalTimeExec location).snd = (getLocalTimeExec other).snd :=
  fun _ => ⟨rfl, fun _ => rfl⟩

end ChatAgent
